import Mathlib

/-!
Shallow embedding of the foot-traffic checker, a two-service Python system:

* `src/main.py` — the prediction service: hour/transport multiplier tables,
  `calculate_congestion_level`, `calculate_current_footfall`, and the
  location/area prediction endpoints.
* `src/data/main.py` — the data-generator service: per-location footfall
  series generation (`generate_transport_data`) and summary statistics.

Modelling conventions:

* Python floats are idealised as exact rationals (`ℚ`).  Every threshold
  comparison and table constant appearing in the claims is far from any
  binary-rounding boundary (e.g. `int(5000 * 0.2)` evaluates to exactly
  `1000` in IEEE doubles), so the idealisation agrees with the source on
  all inputs the theorems touch.
* Python `int(x)` truncates towards zero: `pyInt`.  Python `round(x)`
  rounds half to even: `pyRound`.
* Python dict `.get(key, default)` is `dictGet` over association lists.
* `datetime.now()` (the wall-clock hour, the series start date and its
  weekday) is passed as an explicit parameter.
* Randomness (`np.random`) and the transcendental `np.sin` evaluations
  are passed as explicit per-day oracle parameters (`DayDraws`, `sinVal`):
  each theorem holds for every fixed choice of draws, mirroring the
  "given fixed random draws" phrasing of the specification.
* Pandas `NaN` outputs (sample std of a series of length < 2) are
  modelled as `Option.none`.
* An HTTP failure response (`HTTPException(status, detail)`) is the
  `Except.error` of an `HTTPError`; a collaborator call that fails is a
  fetch oracle returning `none` (the code's `get_location_data` catches
  every exception and returns `None`).
-/

namespace FootTraffic

/-- Python `int()` applied to a real number: truncation towards zero. -/
def pyInt (q : ℚ) : ℤ := if 0 ≤ q then ⌊q⌋ else ⌈q⌉

/-- Python `round()` applied to a real number: round half to even. -/
def pyRound (q : ℚ) : ℤ :=
  if q - ⌊q⌋ = 1 / 2 then (if ⌊q⌋ % 2 = 0 then ⌊q⌋ else ⌊q⌋ + 1) else ⌊q + 1 / 2⌋

/-- Python `round(x, 2)`: round to two decimal places. -/
def round2 (q : ℚ) : ℚ := (pyRound (q * 100) : ℚ) / 100

/-- Python dict `.get(key, default)` over an association list. -/
def dictGet {κ : Type} [BEq κ] (d : List (κ × ℚ)) (k : κ) (dflt : ℚ) : ℚ :=
  match d.find? (fun p => p.fst == k) with
  | some p => p.snd
  | none => dflt

/-- The congestion classification, totally ordered Low < Medium < High. -/
inductive Level where
  | Low
  | Medium
  | High
deriving DecidableEq, Repr

/-- The numeric code of a level: the dict mapping High to 3, Medium to 2 and
Low to 1 used by the area aggregation (with default 1); it also realises the
order Low < Medium < High. -/
def Level.score : Level → ℕ
  | .Low => 1
  | .Medium => 2
  | .High => 3

/-- The validated transport-type enum of the data-generator service
(`class TransportType(str, Enum)` in `src/data/main.py`). -/
inductive TransportType where
  | metro
  | railway
  | bus
  | signal
deriving DecidableEq, Repr

/-- `HOUR_MULTIPLIERS` from `src/main.py` (lines 113-118). -/
def HOUR_MULTIPLIERS : List (ℕ × ℚ) :=
  [(0, 3/10), (1, 1/5), (2, 1/5), (3, 1/5), (4, 3/10), (5, 2/5),
   (6, 1/2), (7, 4/5), (8, 13/10), (9, 3/2), (10, 6/5), (11, 1),
   (12, 9/10), (13, 4/5), (14, 7/10), (15, 4/5), (16, 9/10), (17, 6/5),
   (18, 3/2), (19, 7/5), (20, 6/5), (21, 9/10), (22, 7/10), (23, 1/2)]

/-- `TRANSPORT_MULTIPLIERS` from `src/main.py` (lines 121-126); keys are the
strings the prediction service passes around (note the area mapping uses the
key `"signals"`, which is absent here and falls back to the default `1.0`). -/
def TRANSPORT_MULTIPLIERS : List (String × ℚ) :=
  [("metro", 1), ("railway", 13/10), ("bus", 4/5), ("signal", 6/5)]

/-- `METRO_STATIONS` from `src/main.py`. -/
def METRO_STATIONS : List String :=
  ["Ghatkopar", "Andheri", "Versova", "Aarey", "Dahisar East",
   "DN Nagar", "Azad Nagar", "Western Express Highway", "Marol Naka", "Airport Road"]

/-- `RAILWAY_STATIONS` from `src/main.py`. -/
def RAILWAY_STATIONS : List String :=
  ["Andheri West", "Bandra", "Dadar", "Borivali", "Malad",
   "Goregaon", "Jogeshwari", "Vile Parle", "Santa Cruz", "Khar Road"]

/-- `BUS_STATIONS` from `src/main.py`. -/
def BUS_STATIONS : List String :=
  ["Andheri Bus Depot", "Kurla Bus Station", "Borivali Bus Depot",
   "Ghatkopar Bus Stand", "Bandra Bus Stand", "Dadar Bus Terminal",
   "Malad Bus Depot", "Goregaon Bus Depot", "Versova Bus Stand", "DN Nagar Bus Stop"]

/-- `TRAFFIC_SIGNALS` from `src/main.py`. -/
def TRAFFIC_SIGNALS : List String :=
  ["Amboli Naka", "Andheri Station Signal", "Western Express Highway Junction",
   "Versova Junction", "DN Nagar Signal", "Azad Nagar Junction",
   "Ghatkopar Junction", "Airport Road Signal", "Marol Naka Signal", "Aarey Signal"]

/-- `get_transport_type` from `src/main.py` (lines 137-147). -/
def get_transport_type (location_name : String) : Option String :=
  if location_name ∈ METRO_STATIONS then some "metro"
  else if location_name ∈ RAILWAY_STATIONS then some "railway"
  else if location_name ∈ BUS_STATIONS then some "bus"
  else if location_name ∈ TRAFFIC_SIGNALS then some "signal"
  else none

/-- `calculate_congestion_level` from `src/main.py` (lines 168-178).
`footfall` is the already-integer current footfall; `multiplier` is the value
the callers bind to the current hour's multiplier. -/
def calculate_congestion_level (footfall : ℤ) (transport_type : String)
    (multiplier : ℚ) : Level :=
  let transport_factor := dictGet TRANSPORT_MULTIPLIERS transport_type 1
  let adjusted_footfall : ℚ := (footfall : ℚ) * transport_factor
  if 6/5 < multiplier ∧ 5000 < adjusted_footfall then .High
  else if 9/10 < multiplier ∧ 3000 < adjusted_footfall then .Medium
  else .Low

/-- `calculate_current_footfall` from `src/main.py` (lines 197-201), with the
wall-clock hour (`datetime.now().hour`) passed explicitly.  Returns the pair
`(int(base_footfall * multiplier), multiplier)` exactly as the source does. -/
def calculate_current_footfall (base_footfall : ℚ) (hour : ℕ) : ℤ × ℚ :=
  let multiplier := dictGet HOUR_MULTIPLIERS hour (4/5)
  (pyInt (base_footfall * multiplier), multiplier)

/-- The estimator pipeline of `get_location_prediction`
(`src/main.py` lines 249-253): current footfall from the hour table, then the
congestion level gated by the hour multiplier. -/
def estimate (base_daily_footfall : ℚ) (transport_type : String) (hour : ℕ) :
    ℤ × Level :=
  let p := calculate_current_footfall base_daily_footfall hour
  (p.1, calculate_congestion_level p.1 transport_type p.2)

/-- Restates the claim's decision rule verbatim, for comparison with
`calculate_congestion_level`: first match wins, gated by the hour
multiplier. -/
def level_decision_spec (hourMultiplier adjustedFootfall : ℚ) : Level :=
  if 6/5 < hourMultiplier ∧ 5000 < adjustedFootfall then .High
  else if 9/10 < hourMultiplier ∧ 3000 < adjustedFootfall then .Medium
  else .Low

/-- `BASE_FOOTFALL` from `src/data/main.py` (lines 69-74); indexing a dict by
a validated enum value, so embedded as a total function. -/
def BASE_FOOTFALL : TransportType → ℚ
  | .metro => 5000
  | .railway => 8000
  | .bus => 3000
  | .signal => 4000

/-- `LOCATION_MULTIPLIERS` from `src/data/main.py` (lines 76-92). -/
def LOCATION_MULTIPLIERS : List (String × ℚ) :=
  [("Ghatkopar", 6/5), ("Andheri", 3/2), ("Versova", 9/10), ("Aarey", 7/10),
   ("Dahisar East", 4/5), ("DN Nagar", 1), ("Azad Nagar", 17/20),
   ("Western Express Highway", 11/10), ("Marol Naka", 13/10), ("Airport Road", 7/5),
   ("Andheri West", 8/5), ("Bandra", 17/10), ("Dadar", 9/5), ("Borivali", 3/2),
   ("Malad", 13/10), ("Goregaon", 6/5), ("Jogeshwari", 11/10), ("Vile Parle", 13/10),
   ("Santa Cruz", 6/5), ("Khar Road", 7/5), ("Andheri Bus Depot", 6/5),
   ("Kurla Bus Station", 13/10), ("Borivali Bus Depot", 11/10),
   ("Ghatkopar Bus Stand", 1), ("Bandra Bus Stand", 6/5),
   ("Dadar Bus Terminal", 7/5), ("Malad Bus Depot", 1),
   ("Goregaon Bus Depot", 9/10), ("Versova Bus Stand", 4/5),
   ("DN Nagar Bus Stop", 9/10), ("Amboli Naka", 13/10),
   ("Andheri Station Signal", 3/2), ("Western Express Highway Junction", 8/5),
   ("Versova Junction", 1), ("DN Nagar Signal", 9/10),
   ("Azad Nagar Junction", 17/20), ("Ghatkopar Junction", 6/5),
   ("Airport Road Signal", 7/5), ("Marol Naka Signal", 13/10), ("Aarey Signal", 7/10)]

/-- The random draws one loop iteration of `generate_transport_data` consumes:
the Gaussian noise sample, whether `np.random.random() < 0.05` fired, and the
uniform `[1.2, 1.5]` event-boost magnitude. -/
structure DayDraws where
  noise : ℚ
  eventFires : Bool
  eventBoost : ℚ
deriving DecidableEq, Repr

/-- The day-count bounds of `DataGenerationRequest`
(`src/data/main.py` lines 102-105): `days: int = Field(default=90, ge=1, le=365)`;
requests outside the bounds are rejected by validation. -/
def daysValid (d : ℤ) : Bool := decide (1 ≤ d) && decide (d ≤ 365)

/-- `generate_transport_data` from `src/data/main.py` (lines 121-156).
`startDate` is `datetime.now() - timedelta(days=days)` as an absolute day
number, `startWeekday` its Python weekday (0 = Monday), `sinVal wd` the float
value of `np.sin(2 * np.pi * wd / 7)`, and `draws` the per-day random draws.
Each entry is `(absolute day number, footfall value)`. -/
def generate_transport_data (location_name : String) (transport_type : TransportType)
    (days : ℕ) (startDate : ℤ) (startWeekday : ℕ)
    (sinVal : ℕ → ℚ) (draws : ℕ → DayDraws) : List (ℤ × ℤ) :=
  (List.range days).map (fun day =>
    let base := BASE_FOOTFALL transport_type
    let multiplier := dictGet LOCATION_MULTIPLIERS location_name 1
    let wd := (startWeekday + day) % 7
    let base_footfall0 := base * multiplier
    let base_footfall1 :=
      if wd < 5 then base_footfall0 * (13/10) else base_footfall0 * (7/10)
    let month_factor := 1 + ((day : ℚ) / (days : ℚ)) * (1/5)
    let base_footfall2 := base_footfall1 * month_factor
    let week_pattern := sinVal wd * (base * (1/10))
    let d := draws day
    let base_footfall3 :=
      if d.eventFires then base_footfall2 * d.eventBoost else base_footfall2
    let footfall := pyInt (base_footfall3 + week_pattern + d.noise)
    (startDate + (day : ℤ), max (pyInt (base * (1/5))) footfall))

/-- Restates the claim's accumulated value verbatim, for comparison with the
loop body of `generate_transport_data`: base times location multiplier, times
the weekday/weekend factor, times the seasonal ramp, times the event boost
when it fires, plus the weekly sine term and the noise draw. -/
def accumulated_value_spec (location_name : String) (transport_type : TransportType)
    (days : ℕ) (startWeekday : ℕ) (sinVal : ℕ → ℚ) (draws : ℕ → DayDraws)
    (day : ℕ) : ℚ :=
  let base := BASE_FOOTFALL transport_type
  let wd := (startWeekday + day) % 7
  let boost := if (draws day).eventFires then (draws day).eventBoost else 1
  base * dictGet LOCATION_MULTIPLIERS location_name 1
      * (if wd < 5 then 13/10 else 7/10)
      * (1 + ((day : ℚ) / (days : ℚ)) * (1/5)) * boost
    + sinVal wd * (base * (1/10)) + (draws day).noise

/-- the mean of the generated value column: the arithmetic mean (junk `0` on the empty list, which
never occurs: every generated frame has `days ≥ 1` rows). -/
def listMean (ys : List ℚ) : ℚ := ys.sum / (ys.length : ℚ)

/-- the median of the generated value column: sort, then the middle value (odd length) or the mean
of the two middle values (even length). -/
def listMedian (ys : List ℚ) : ℚ :=
  let s := ys.mergeSort (fun a b => decide (a ≤ b))
  let n := s.length
  if n % 2 = 1 then s.getD (n / 2) 0
  else (s.getD (n / 2 - 1) 0 + s.getD (n / 2) 0) / 2

/-- the min of the generated value column. -/
def listMin : List ℚ → ℚ
  | [] => 0
  | x :: xs => xs.foldl min x

/-- the max of the generated value column. -/
def listMax : List ℚ → ℚ
  | [] => 0
  | x :: xs => xs.foldl max x

/-- The squared sample standard deviation of the std of the generated value column (pandas default
`ddof=1`): `Σ (y - mean)² / (n - 1)`.  For `n ≤ 1` pandas divides by zero and
yields `NaN`, modelled as `none`. -/
def sampleVariance (ys : List ℚ) : Option ℚ :=
  if 2 ≤ ys.length then
    some (((ys.map (fun y => (y - listMean ys) ^ 2)).sum) / ((ys.length : ℚ) - 1))
  else none

/-- the std of the generated value column (pandas, `ddof=1`): the square root of the sample
variance; `none` models the `NaN` produced for series of length < 2. -/
noncomputable def sampleStd (ys : List ℚ) : Option ℝ :=
  (sampleVariance ys).map (fun v => Real.sqrt (v : ℝ))

/-- The `stats` dict assembled by `generate_data`
(`src/data/main.py` lines 234-240). -/
structure SeriesStatistics where
  mean : ℚ
  median : ℚ
  smin : ℚ
  smax : ℚ
  std : Option ℝ

/-- `generate_data`'s statistics block (`src/data/main.py` lines 234-240)
applied to the generated value column. -/
noncomputable def summarize (ys : List ℚ) : SeriesStatistics :=
  ⟨listMean ys, listMedian ys, listMin ys, listMax ys, sampleStd ys⟩

/-- An `HTTPException(status_code, detail)` raised by the prediction
service. -/
structure HTTPError where
  status : ℕ
  detail : String
deriving DecidableEq, Repr

/-- One entry of the `components` list built by `get_area_prediction`
(`src/main.py` lines 299-304). -/
structure Component where
  location : String
  ttype : String
  footfall : ℤ
  congestion : Level
deriving DecidableEq, Repr

/-- The response of `get_area_prediction` (`src/main.py` lines 319-326):
overall level, reported (2-decimal-rounded) score, and the component list. -/
structure AreaResult where
  overall : Level
  score : ℚ
  components : List Component
deriving DecidableEq, Repr

/-- The member-collection loop of `get_area_prediction`
(`src/main.py` lines 287-304): for each `(transport_type, location)` member,
a failed fetch (`data` falsy or `success` false) is skipped; a successful one
contributes a component with the hour-adjusted footfall and its congestion
level.  `fetch loc` is the abstract statistics collaborator: `some mean` on
success, `none` on failure. -/
def area_components (members : List (String × String))
    (fetch : String → Option ℚ) (multiplier : ℚ) : List Component :=
  members.filterMap (fun p =>
    match fetch p.snd with
    | none => none
    | some mean =>
      let current_footfall := pyInt (mean * multiplier)
      some ⟨p.snd, p.fst, current_footfall,
            calculate_congestion_level current_footfall p.fst multiplier⟩)

/-- The overall-congestion thresholds of `get_area_prediction`
(`src/main.py` lines 312-317). -/
def overall_congestion (avg_score : ℚ) : Level :=
  if 5/2 ≤ avg_score then .High
  else if 3/2 ≤ avg_score then .Medium
  else .Low

/-- The mean component score: `sum(congestion_scores) / len(congestion_scores)`
(`src/main.py` line 310), expressed over the component list (the code builds
`congestion_scores` and `components` in lockstep, one entry per successful
member). -/
def area_score (comps : List Component) : ℚ :=
  ((comps.map (fun c => (c.congestion.score : ℚ))).sum) / ((comps.length : ℚ))

/-- `get_area_prediction` from `src/main.py` (lines 272-332), with the member
list of the area, the statistics collaborator and the wall-clock hour passed
explicitly (members are the flattened `AREA_MAPPING[area_name].items()`
pairs, whose first component is the mapping key, e.g. `"signals"`).  An empty
surviving-component list raises `404 "No data available for this area"`. -/
def get_area_prediction (members : List (String × String))
    (fetch : String → Option ℚ) (hour : ℕ) : Except HTTPError AreaResult :=
  let multiplier := dictGet HOUR_MULTIPLIERS hour (4/5)
  let comps := area_components members fetch multiplier
  if comps.isEmpty then .error ⟨404, "No data available for this area"⟩
  else
    let avg_score := area_score comps
    .ok ⟨overall_congestion avg_score, round2 avg_score, comps⟩

/-- The response of `get_location_prediction` (`src/main.py` lines 255-264),
restricted to the model-relevant fields. -/
structure LocationPrediction where
  location : String
  transport_type : String
  current_footfall : ℤ
  base_daily_footfall : ℤ
  congestion_level : Level
  current_hour : ℕ
deriving DecidableEq, Repr

/-- `get_location_prediction` from `src/main.py` (lines 233-270).  Unknown
locations fail with `404 "Location not found"`.  `fetch` models
`get_location_data`, which catches every collaborator error (including the
503 raised by `call_data_generator`) and returns `None`; a `none` fetch or a
falsy/unsuccessful payload therefore fails with `404 "Data not available"`. -/
def get_location_prediction (location_name : String)
    (fetch : String → Option ℚ) (hour : ℕ) :
    Except HTTPError LocationPrediction :=
  match get_transport_type location_name with
  | none => .error ⟨404, "Location not found"⟩
  | some transport_type =>
    match fetch location_name with
    | none => .error ⟨404, "Data not available"⟩
    | some base_footfall =>
      let p := calculate_current_footfall base_footfall hour
      .ok ⟨location_name, transport_type, p.1, pyInt base_footfall,
           calculate_congestion_level p.1 transport_type p.2, hour⟩

/-! ## Helper lemmas -/

theorem pyInt_mono {x y : ℚ} (h : x ≤ y) : pyInt x ≤ pyInt y := by
  unfold pyInt
  split_ifs with hx hy hy
  · exact Int.floor_le_floor h
  · exact absurd (hx.trans h) hy
  · exact le_trans (Int.ceil_le.mpr (by exact_mod_cast le_of_lt (lt_of_not_le hx)))
      (Int.floor_nonneg.mpr hy)
  · exact Int.ceil_le_ceil h

theorem pyInt_pos_arg {x : ℚ} (h : 0 < pyInt x) : 0 < x := by
  unfold pyInt at h
  split_ifs at h with hx
  · have h1 : (1 : ℤ) ≤ ⌊x⌋ := h
    have h2 : (1 : ℚ) ≤ x := by exact_mod_cast Int.le_floor.mp h1
    linarith
  · exact absurd (Int.ceil_le.mpr (by exact_mod_cast le_of_lt (lt_of_not_le hx)))
      (not_le.mpr h)

theorem transport_factor_pos (ts : String) :
    0 < dictGet TRANSPORT_MULTIPLIERS ts 1 := by
  unfold dictGet
  cases h : List.find? (fun p => p.fst == ts) TRANSPORT_MULTIPLIERS with
  | none => norm_num
  | some p =>
    have hp : p ∈ TRANSPORT_MULTIPLIERS := List.mem_of_find?_eq_some h
    fin_cases hp <;> norm_num

theorem congestion_cond_mono {base m1 m2 tf t T : ℚ} (htf : 0 < tf)
    (hm : m1 ≤ m2) (hth : 0 < t) (hT : 0 < T)
    (h1 : t < m1) (h2 : T < (pyInt (base * m1) : ℚ) * tf) :
    t < m2 ∧ T < (pyInt (base * m2) : ℚ) * tf := by
  refine ⟨lt_of_lt_of_le h1 hm, ?_⟩
  have hc1 : 0 < pyInt (base * m1) := by
    by_contra hle
    push_neg at hle
    have hle2 : ((pyInt (base * m1)) : ℚ) ≤ 0 := by exact_mod_cast hle
    nlinarith
  have hx : 0 < base * m1 := pyInt_pos_arg hc1
  have hm1 : 0 < m1 := lt_trans hth h1
  have hbase : 0 < base := by
    rcases mul_pos_iff.mp hx with ⟨hb, _⟩ | ⟨_, hneg⟩
    · exact hb
    · linarith
  have hle3 : base * m1 ≤ base * m2 := mul_le_mul_of_nonneg_left hm hbase.le
  have hcast : ((pyInt (base * m1)) : ℚ) ≤ ((pyInt (base * m2)) : ℚ) := by
    exact_mod_cast pyInt_mono hle3
  nlinarith

theorem area_components_skip (members : List (String × String))
    (fetch : String → Option ℚ) (m : ℚ) :
    area_components (members.filter (fun p => (fetch p.snd).isSome)) fetch m
      = area_components members fetch m := by
  induction members with
  | nil => rfl
  | cons a l ih =>
    simp only [area_components] at ih ⊢
    rw [List.filter_cons]
    cases h : fetch a.snd with
    | none =>
      rw [if_neg (by simp [h]), ih]
      simp only [List.filterMap_cons, h]
    | some mean =>
      rw [if_pos (by simp [h])]
      simp only [List.filterMap_cons, h]
      rw [ih]

theorem area_components_nil_iff (members : List (String × String))
    (fetch : String → Option ℚ) (m : ℚ) :
    area_components members fetch m = [] ↔ ∀ p ∈ members, fetch p.snd = none := by
  simp only [area_components, List.filterMap_eq_nil_iff]
  refine forall₂_congr (fun p hp => ?_)
  cases h : fetch p.snd <;> simp [h]

theorem listMean_replicate {n : ℕ} (hn : 0 < n) (v : ℚ) :
    listMean (List.replicate n v) = v := by
  unfold listMean
  rw [List.sum_replicate, List.length_replicate, nsmul_eq_mul, mul_comm,
    mul_div_assoc, div_self (by exact_mod_cast hn.ne'), mul_one]

theorem foldl_min_const (m : ℕ) (v : ℚ) :
    (List.replicate m v).foldl min v = v := by
  induction m with
  | zero => rfl
  | succ k ih => rw [List.replicate_succ, List.foldl_cons, min_self, ih]

theorem foldl_max_const (m : ℕ) (v : ℚ) :
    (List.replicate m v).foldl max v = v := by
  induction m with
  | zero => rfl
  | succ k ih => rw [List.replicate_succ, List.foldl_cons, max_self, ih]

theorem listMin_replicate {n : ℕ} (hn : 0 < n) (v : ℚ) :
    listMin (List.replicate n v) = v := by
  cases n with
  | zero => omega
  | succ k => rw [List.replicate_succ, listMin, foldl_min_const]

theorem listMax_replicate {n : ℕ} (hn : 0 < n) (v : ℚ) :
    listMax (List.replicate n v) = v := by
  cases n with
  | zero => omega
  | succ k => rw [List.replicate_succ, listMax, foldl_max_const]

theorem listMedian_replicate {n : ℕ} (hn : 0 < n) (v : ℚ) :
    listMedian (List.replicate n v) = v := by
  unfold listMedian
  have hperm := List.mergeSort_perm (List.replicate n v) (fun a b => decide (a ≤ b))
  have hlen : ((List.replicate n v).mergeSort (fun a b => decide (a ≤ b))).length = n := by
    rw [hperm.length_eq, List.length_replicate]
  have hall : ∀ x ∈ (List.replicate n v).mergeSort (fun a b => decide (a ≤ b)), x = v :=
    fun x hx => List.eq_of_mem_replicate (hperm.mem_iff.mp hx)
  have hget : ∀ i : ℕ, i < n →
      ((List.replicate n v).mergeSort (fun a b => decide (a ≤ b))).getD i 0 = v := by
    intro i hi
    rw [List.getD_eq_getElem _ _ (by rw [hlen]; exact hi)]
    exact hall _ (List.getElem_mem _)
  simp only [hlen]
  split_ifs with hpar
  · exact hget _ (Nat.div_lt_self hn (by norm_num))
  · rw [hget _ (Nat.div_lt_self hn (by norm_num)), hget _ (by omega)]
    ring

theorem sampleVariance_replicate {n : ℕ} (hn : 2 ≤ n) (v : ℚ) :
    sampleVariance (List.replicate n v) = some 0 := by
  unfold sampleVariance
  rw [if_pos (by simpa using hn)]
  rw [listMean_replicate (by omega) v, List.map_replicate]
  simp

/-! ## Claim theorems -/

/-- C1 (confirmed): for every transport type, base daily footfall and hour,
the estimator's congestion level is decided, first match wins, by:
hourMultiplier > 1.2 and adjustedFootfall > 5000 gives High; else
hourMultiplier > 0.9 and adjustedFootfall > 3000 gives Medium; else Low,
where adjustedFootfall is currentFootfall times the fixed transport
multiplier (metro 1.0, railway 1.3, bus 0.8, signal 1.2) and the gating
factor is the hour multiplier.  In particular
`estimate(6000, railway, 9) = (9000, High)`. -/
theorem c1_estimator_rule :
    (∀ (base : ℚ) (ts : String) (hour : ℕ),
        (estimate base ts hour).2 =
          level_decision_spec (dictGet HOUR_MULTIPLIERS hour (4/5))
            (((estimate base ts hour).1 : ℚ) * dictGet TRANSPORT_MULTIPLIERS ts 1)) ∧
    dictGet TRANSPORT_MULTIPLIERS "metro" 1 = 1 ∧
    dictGet TRANSPORT_MULTIPLIERS "railway" 1 = 13/10 ∧
    dictGet TRANSPORT_MULTIPLIERS "bus" 1 = 4/5 ∧
    dictGet TRANSPORT_MULTIPLIERS "signal" 1 = 6/5 ∧
    estimate 6000 "railway" 9 = (9000, Level.High) := by
  refine ⟨fun base ts hour => rfl, rfl, rfl, rfl, rfl, ?_⟩
  have h1 : dictGet HOUR_MULTIPLIERS 9 (4/5) = 3/2 := rfl
  have h2 : dictGet TRANSPORT_MULTIPLIERS "railway" 1 = 13/10 := rfl
  simp only [estimate, calculate_current_footfall, calculate_congestion_level, h1, h2]
  norm_num [pyInt]

/-- C2 counterexample: the claim says `currentFootfall = round(base * m)`,
but the source computes `int(base * m)`, which truncates: at
`base = 1, hour = 9` the code returns `1` while Python `round(1 * 1.5) = 2`. -/
theorem c2_counterexample :
    (calculate_current_footfall 1 9).1 = 1 ∧
    pyRound ((1 : ℚ) * dictGet HOUR_MULTIPLIERS 9 (4/5)) = 2 ∧
    (calculate_current_footfall 1 9).1 ≠
      pyRound ((1 : ℚ) * dictGet HOUR_MULTIPLIERS 9 (4/5)) := by
  have h1 : dictGet HOUR_MULTIPLIERS 9 (4/5) = 3/2 := rfl
  simp only [calculate_current_footfall, h1]
  norm_num [pyInt, pyRound]

/-- C2 (amended): the estimator computes
`currentFootfall = int(baseDailyFootfall * hourMultiplier)` — truncation
towards zero, not rounding — where the hour multiplier is taken from the
fixed 24-entry hour table (1.5 at hours 9 and 18, 0.2 at hour 2) and
defaults to 0.8 only when the hour is outside the table. -/
theorem c2_truncation (base : ℚ) (hour h2 : ℕ) (hbig : 24 ≤ h2) :
    (calculate_current_footfall base hour).1 =
      pyInt (base * dictGet HOUR_MULTIPLIERS hour (4/5)) ∧
    (calculate_current_footfall base hour).2 = dictGet HOUR_MULTIPLIERS hour (4/5) ∧
    dictGet HOUR_MULTIPLIERS 9 (4/5) = 3/2 ∧
    dictGet HOUR_MULTIPLIERS 18 (4/5) = 3/2 ∧
    dictGet HOUR_MULTIPLIERS 2 (4/5) = 1/5 ∧
    (calculate_current_footfall base h2).2 = 4/5 := by
  refine ⟨rfl, rfl, rfl, rfl, rfl, ?_⟩
  show dictGet HOUR_MULTIPLIERS h2 (4/5) = 4/5
  have hnone : List.find? (fun p => p.fst == h2) HOUR_MULTIPLIERS = none := by
    rw [List.find?_eq_none]
    intro p hp
    simp only [beq_iff_eq]
    intro hEq
    fin_cases hp <;> omega
  simp [dictGet, hnone]

/-- C2 witness. -/
theorem c2_truncation_witness :
    24 ≤ 24 ∧ (calculate_current_footfall (5 : ℚ) 24).2 = 4/5 :=
  ⟨le_refl 24, (c2_truncation 5 9 24 (le_refl 24)).2.2.2.2.2⟩

/-- C7 (confirmed): for a fixed transport type and base daily footfall the
estimator is monotonic in the hour multiplier: with `m1 ≤ m2`, the level
produced with `m2` (in the order Low < Medium < High, realised by
`Level.score`) is never strictly below the level produced with `m1`. -/
theorem c7_monotone (ts : String) (base m1 m2 : ℚ) (h : m1 ≤ m2) :
    (calculate_congestion_level (pyInt (base * m1)) ts m1).score ≤
      (calculate_congestion_level (pyInt (base * m2)) ts m2).score := by
  have htf := transport_factor_pos ts
  simp only [calculate_congestion_level]
  split_ifs with hA1 hA2 hB2 hB1 hA2x hB2x hA2y hB2y
  · decide
  · exact absurd (congestion_cond_mono htf h (by norm_num) (by norm_num)
      hA1.1 hA1.2) hA2
  · exact absurd (congestion_cond_mono htf h (by norm_num) (by norm_num)
      hA1.1 hA1.2) hA2
  · decide
  · decide
  · exact absurd (congestion_cond_mono htf h (by norm_num) (by norm_num)
      hB1.1 hB1.2) hB2x
  · decide
  · decide
  · decide

/-- C3 (confirmed): for every location, transport type and `days ∈ [1, 365]`
(day counts outside that range fail validation), the generator returns
exactly `days` entries with strictly increasing, gap-free consecutive dates,
and every value is at least `round(base_raw * 0.2)` (which for every
transport base equals the code's `int(base * 0.2)` floor), hence
non-negative. -/
theorem c3_generate_shape (location : String) (t : TransportType) (days : ℕ)
    (startDate : ℤ) (startWeekday : ℕ) (sinVal : ℕ → ℚ) (draws : ℕ → DayDraws)
    (h1 : 1 ≤ days) (h2 : days ≤ 365) :
    daysValid (days : ℤ) = true ∧
    (∀ d : ℤ, daysValid d = true ↔ 1 ≤ d ∧ d ≤ 365) ∧
    (generate_transport_data location t days startDate startWeekday sinVal draws).length
      = days ∧
    (generate_transport_data location t days startDate startWeekday sinVal draws).map
        Prod.fst = (List.range days).map (fun (i : ℕ) => startDate + (i : ℤ)) ∧
    (generate_transport_data location t days startDate startWeekday sinVal
        draws).Pairwise (fun a b => a.1 < b.1) ∧
    ∀ e ∈ generate_transport_data location t days startDate startWeekday sinVal draws,
      pyRound (BASE_FOOTFALL t * (1/5)) ≤ e.2 ∧ 0 ≤ e.2 := by
  have hfloor : ∀ t2 : TransportType,
      pyRound (BASE_FOOTFALL t2 * (1/5)) = pyInt (BASE_FOOTFALL t2 * (1/5)) := by
    intro t2
    cases t2 <;> norm_num [BASE_FOOTFALL, pyInt, pyRound]
  have hnonneg : ∀ t2 : TransportType, 0 ≤ pyInt (BASE_FOOTFALL t2 * (1/5)) := by
    intro t2
    cases t2 <;> norm_num [BASE_FOOTFALL, pyInt]
  refine ⟨?_, ?_, ?_, ?_, ?_, ?_⟩
  · simp only [daysValid, Bool.and_eq_true, decide_eq_true_eq]
    exact ⟨by exact_mod_cast h1, by exact_mod_cast h2⟩
  · intro d
    simp [daysValid]
  · simp [generate_transport_data]
  · simp only [generate_transport_data, List.map_map]
    rfl
  · simp only [generate_transport_data]
    rw [List.pairwise_map]
    refine (List.pairwise_lt_range days).imp ?_
    intro i j hij
    show startDate + (i : ℤ) < startDate + (j : ℤ)
    omega
  · intro e he
    simp only [generate_transport_data, List.mem_map, List.mem_range] at he
    obtain ⟨i, _, rfl⟩ := he
    refine ⟨?_, ?_⟩
    · rw [hfloor t]
      exact le_max_left _ _
    · exact le_trans (hnonneg t) (le_max_left _ _)

/-- C3 witness. -/
theorem c3_generate_shape_witness :
    1 ≤ 7 ∧ 7 ≤ 365 ∧
    (generate_transport_data "Andheri" TransportType.metro 7 0 0
        (fun _ => 0) (fun _ => ⟨0, false, 1⟩)).length = 7 :=
  ⟨by norm_num, by norm_num,
    (c3_generate_shape "Andheri" TransportType.metro 7 0 0
      (fun _ => 0) (fun _ => ⟨0, false, 1⟩) (by norm_num) (by norm_num)).2.2.1⟩

/-- C4 counterexample: the claim says the final value of a day equals
`max(round(base_raw*0.2), round(accumulated_value))`, but the source uses
`int(...)` truncation: with one day, weekday Monday, zero sine and event
draws and noise 0.6, the accumulated value is 6500.6; the code yields 6500
while the claimed rounding formula yields 6501. -/
theorem c4_counterexample :
    ((generate_transport_data "DN Nagar" TransportType.metro 1 0 0
        (fun _ => 0) (fun _ => ⟨3/5, false, 1⟩)).getD 0 (0, 0)).2 = 6500 ∧
    max (pyRound (BASE_FOOTFALL TransportType.metro * (1/5)))
        (pyRound (accumulated_value_spec "DN Nagar" TransportType.metro 1 0
          (fun _ => 0) (fun _ => ⟨3/5, false, 1⟩) 0)) = 6501 := by
  have hmul : dictGet LOCATION_MULTIPLIERS "DN Nagar" 1 = 1 := rfl
  constructor
  · simp only [generate_transport_data, hmul, BASE_FOOTFALL, List.range_succ,
      List.range_zero, List.nil_append, List.map_cons, List.map_nil]
    norm_num [pyInt]
  · simp only [accumulated_value_spec, hmul, BASE_FOOTFALL]
    norm_num [pyRound]

/-- C4 (amended): for every day `d < days` and fixed draws, the final value
equals `max(int(base_raw*0.2), int(accumulated_value))` with
`accumulated_value` exactly as the claim describes it — the only deviation
from the claim is that the final conversion is Python `int()` truncation,
not rounding (for the `base_raw*0.2` floor the two agree on all four
transport bases). -/
theorem c4_truncation (location : String) (t : TransportType) (days : ℕ)
    (startDate : ℤ) (startWeekday : ℕ) (sinVal : ℕ → ℚ) (draws : ℕ → DayDraws)
    (d : ℕ) (hd : d < days) :
    ((generate_transport_data location t days startDate startWeekday sinVal
        draws).getD d (0, 0)).2
      = max (pyInt (BASE_FOOTFALL t * (1/5)))
          (pyInt (accumulated_value_spec location t days startWeekday sinVal draws d)) ∧
    (∀ t2 : TransportType,
      pyInt (BASE_FOOTFALL t2 * (1/5)) = pyRound (BASE_FOOTFALL t2 * (1/5))) := by
  constructor
  · have hlen : d < (generate_transport_data location t days startDate
        startWeekday sinVal draws).length := by
      simpa [generate_transport_data] using hd
    rw [List.getD_eq_getElem _ _ hlen]
    simp only [generate_transport_data, List.getElem_map, List.getElem_range]
    have harg :
        (let base := BASE_FOOTFALL t
         let multiplier := dictGet LOCATION_MULTIPLIERS location 1
         let wd := (startWeekday + d) % 7
         let base_footfall0 := base * multiplier
         let base_footfall1 :=
           if wd < 5 then base_footfall0 * (13/10) else base_footfall0 * (7/10)
         let month_factor := 1 + ((d : ℚ) / (days : ℚ)) * (1/5)
         let base_footfall2 := base_footfall1 * month_factor
         let week_pattern := sinVal wd * (base * (1/10))
         let dr := draws d
         let base_footfall3 :=
           if dr.eventFires then base_footfall2 * dr.eventBoost else base_footfall2
         base_footfall3 + week_pattern + dr.noise)
        = accumulated_value_spec location t days startWeekday sinVal draws d := by
      simp only [accumulated_value_spec]
      split_ifs <;> ring
    simp only [harg]
  · intro t2
    cases t2 <;> norm_num [BASE_FOOTFALL, pyInt, pyRound]

/-- C4 witness. -/
theorem c4_truncation_witness :
    0 < 2 ∧
    ((generate_transport_data "Bandra" TransportType.railway 2 5 3
        (fun _ => 0) (fun _ => ⟨0, false, 1⟩)).getD 0 (0, 0)).2
      = max (pyInt (BASE_FOOTFALL TransportType.railway * (1/5)))
          (pyInt (accumulated_value_spec "Bandra" TransportType.railway 2 3
            (fun _ => 0) (fun _ => ⟨0, false, 1⟩) 0)) :=
  ⟨by norm_num,
    (c4_truncation "Bandra" TransportType.railway 2 5 3
      (fun _ => 0) (fun _ => ⟨0, false, 1⟩) 0 (by norm_num)).1⟩

/-- C7 witness. -/
theorem c7_monotone_witness :
    (1 : ℚ) ≤ 3/2 ∧
    (calculate_congestion_level (pyInt ((4000 : ℚ) * 1)) "metro" 1).score ≤
      (calculate_congestion_level (pyInt ((4000 : ℚ) * (3/2))) "metro" (3/2)).score :=
  ⟨by norm_num, c7_monotone "metro" 4000 1 (3/2) (by norm_num)⟩

/-- C5 (confirmed): every successful area result has a non-empty component
list, its overall level is derived from the unrounded arithmetic mean of the
components' level codes {Low:1, Medium:2, High:3} via the fixed thresholds
(≥ 2.5 High, ≥ 1.5 Medium, else Low), and only the reported score is rounded
to two decimals.  In particular components {High, Low} give score 2.0 and
overall level Medium. -/
theorem c5_area_score (members : List (String × String))
    (fetch : String → Option ℚ) (hour : ℕ) (r : AreaResult)
    (h : get_area_prediction members fetch hour = .ok r) :
    r.components ≠ [] ∧
    r.overall = overall_congestion (area_score r.components) ∧
    r.score = round2 (area_score r.components) ∧
    area_score [⟨"A", "metro", 6000, Level.High⟩, ⟨"B", "metro", 150, Level.Low⟩]
      = 2 ∧
    overall_congestion 2 = Level.Medium := by
  have hdemo : area_score
      [⟨"A", "metro", 6000, Level.High⟩, ⟨"B", "metro", 150, Level.Low⟩] = 2 := by
    norm_num [area_score, Level.score]
  simp only [get_area_prediction] at h
  by_cases hce :
      (area_components members fetch (dictGet HOUR_MULTIPLIERS hour (4/5))).isEmpty
  · rw [if_pos hce] at h
    exact absurd h (by simp)
  · rw [if_neg hce] at h
    obtain rfl := (Except.ok.inj h).symm
    exact ⟨by simpa [List.isEmpty_iff] using hce, rfl, rfl, hdemo,
      by norm_num [overall_congestion]⟩

/-- C5 witness. -/
theorem c5_area_score_witness :
    get_area_prediction [("metro", "A"), ("metro", "B")]
        (fun s => if s = "A" then some 4000 else if s = "B" then some 100 else none) 9
      = .ok ⟨Level.Medium, 2,
          [⟨"A", "metro", 6000, Level.High⟩, ⟨"B", "metro", 150, Level.Low⟩]⟩ ∧
    (AreaResult.mk Level.Medium 2
        [⟨"A", "metro", 6000, Level.High⟩, ⟨"B", "metro", 150, Level.Low⟩]).overall
      = overall_congestion (area_score (AreaResult.mk Level.Medium 2
          [⟨"A", "metro", 6000, Level.High⟩, ⟨"B", "metro", 150, Level.Low⟩]).components) := by
  have hm : dictGet HOUR_MULTIPLIERS 9 (4/5) = 3/2 := rfl
  have htf : dictGet TRANSPORT_MULTIPLIERS "metro" 1 = 1 := rfl
  have hBA : (("B" : String) = "A") = False := by simp
  have hcomps : area_components [("metro", "A"), ("metro", "B")]
      (fun s => if s = "A" then some 4000 else if s = "B" then some 100 else none) (3/2)
      = [⟨"A", "metro", 6000, Level.High⟩, ⟨"B", "metro", 150, Level.Low⟩] := by
    simp only [area_components, List.filterMap_cons, List.filterMap_nil]
    norm_num [calculate_congestion_level, htf, pyInt, hBA]
  have heval : get_area_prediction [("metro", "A"), ("metro", "B")]
      (fun s => if s = "A" then some 4000 else if s = "B" then some 100 else none) 9
      = .ok ⟨Level.Medium, 2,
          [⟨"A", "metro", 6000, Level.High⟩, ⟨"B", "metro", 150, Level.Low⟩]⟩ := by
    simp only [get_area_prediction, hm, hcomps]
    norm_num [area_score, Level.score, overall_congestion, round2, pyRound]
  exact ⟨heval, (c5_area_score _ _ 9 _ heval).2.1⟩

/-- C6 (confirmed): members whose statistics fetch fails are skipped and do
not influence the result (the prediction equals the prediction over the
successfully-fetching members only), and the aggregation fails with the
404 "no data" error exactly when every member's fetch failed. -/
theorem c6_skip_on_failure (members : List (String × String))
    (fetch : String → Option ℚ) (hour : ℕ) :
    get_area_prediction members fetch hour
      = get_area_prediction (members.filter (fun p => (fetch p.snd).isSome)) fetch hour ∧
    (get_area_prediction members fetch hour
        = .error ⟨404, "No data available for this area"⟩
      ↔ ∀ p ∈ members, fetch p.snd = none) := by
  constructor
  · simp only [get_area_prediction, area_components_skip]
  · simp only [get_area_prediction]
    by_cases hc :
        area_components members fetch (dictGet HOUR_MULTIPLIERS hour (4/5)) = []
    · rw [if_pos (List.isEmpty_iff.mpr hc)]
      simpa using (area_components_nil_iff members fetch _).mp hc
    · rw [if_neg (fun hem => hc (List.isEmpty_iff.mp hem))]
      constructor
      · intro hcontra
        exact absurd hcontra (by simp)
      · intro hall
        exact absurd ((area_components_nil_iff members fetch _).mpr hall) hc

/-- C6 witness (the degenerate all-members-fail case). -/
theorem c6_skip_on_failure_witness :
    get_area_prediction [("metro", "A")] (fun _ => none) 9
      = .error ⟨404, "No data available for this area"⟩ :=
  (c6_skip_on_failure [("metro", "A")] (fun _ => none) 9).2.mpr (by simp)

/-- C8 counterexample: a series of one identical value is a series of
identical values, yet its sample standard deviation is `NaN` (modelled
`none`), not 0 — pandas `std(ddof=1)` divides by `n - 1 = 0`. -/
theorem c8_counterexample :
    sampleStd [(5 : ℚ)] = none ∧ (summarize [(5 : ℚ)]).std ≠ some 0 := by
  have h : sampleVariance [(5 : ℚ)] = none := by simp [sampleVariance]
  exact ⟨by simp [sampleStd, h], by simp [summarize, sampleStd, h]⟩

/-- C8 (amended): `summarize` computes the mean, the sample standard
deviation (ddof = 1), the median, the min and the max; for every series of
`n ≥ 2` identical values `v` it returns mean = median = min = max = `v` and
std = 0.  (For `n = 1` the std is `NaN`, modelled `none`; see the
counterexample.) -/
theorem c8_identical_series (v : ℚ) (n : ℕ) (hn : 2 ≤ n) :
    (summarize (List.replicate n v)).mean = v ∧
    (summarize (List.replicate n v)).median = v ∧
    (summarize (List.replicate n v)).smin = v ∧
    (summarize (List.replicate n v)).smax = v ∧
    (summarize (List.replicate n v)).std = some 0 := by
  refine ⟨listMean_replicate (by omega) v, listMedian_replicate (by omega) v,
    listMin_replicate (by omega) v, listMax_replicate (by omega) v, ?_⟩
  show sampleStd _ = some 0
  rw [sampleStd, sampleVariance_replicate hn]
  simp

/-- C8 witness. -/
theorem c8_identical_series_witness :
    2 ≤ 3 ∧ (summarize (List.replicate 3 (7 : ℚ))).mean = 7 :=
  ⟨by norm_num, (c8_identical_series 7 3 (by norm_num)).1⟩

/-- C9 counterexample: the claim says a collaborator failure surfaces as a
failure distinct from NotFound, but both the unknown-location failure and
the collaborator failure carry HTTP status 404; they differ only in the
detail string. -/
theorem c9_counterexample :
    get_location_prediction "Andheri" (fun _ => none) 9
      = .error ⟨404, "Data not available"⟩ ∧
    get_location_prediction "Nowhere" (fun _ => none) 9
      = .error ⟨404, "Location not found"⟩ ∧
    (HTTPError.mk 404 "Data not available").status
      = (HTTPError.mk 404 "Location not found").status :=
  ⟨rfl, rfl, rfl⟩

/-- C9 (amended): for a known location whose statistics fetch fails, the
surfaced failure is HTTP 404 with detail "Data not available" — the same
status code as the unknown-location NotFound failure (404 "Location not
found"), distinguishable from it only by the detail string. -/
theorem c9_failure_kinds (name tt : String) (fetch : String → Option ℚ)
    (hour : ℕ) (h1 : get_transport_type name = some tt) (h2 : fetch name = none) :
    get_location_prediction name fetch hour = .error ⟨404, "Data not available"⟩ ∧
    (∀ name2, get_transport_type name2 = none →
      get_location_prediction name2 fetch hour
        = .error ⟨404, "Location not found"⟩) ∧
    "Data not available" ≠ "Location not found" := by
  refine ⟨?_, ?_, by decide⟩
  · simp only [get_location_prediction, h1, h2]
  · intro name2 hn
    simp only [get_location_prediction, hn]

/-- C9 witness. -/
theorem c9_failure_kinds_witness :
    get_transport_type "Andheri" = some "metro" ∧
    get_location_prediction "Andheri" (fun _ => none) 7
      = .error ⟨404, "Data not available"⟩ :=
  ⟨rfl, (c9_failure_kinds "Andheri" "metro" (fun _ => none) 7 rfl rfl).1⟩

/-- C10 (confirmed): a one-day request passes validation, the generator
produces a series of length 1, and `summarize` on a length-1 series returns
`NaN` (modelled `none`) for the std while mean, median, min and max all
equal the single value. -/
theorem c10_single_day_nan (location : String) (t : TransportType)
    (startDate : ℤ) (startWeekday : ℕ) (sinVal : ℕ → ℚ) (draws : ℕ → DayDraws)
    (v : ℚ) :
    daysValid 1 = true ∧
    (generate_transport_data location t 1 startDate startWeekday sinVal
        draws).length = 1 ∧
    (summarize [v]).std = none ∧
    (summarize [v]).mean = v ∧
    (summarize [v]).median = v ∧
    (summarize [v]).smin = v ∧
    (summarize [v]).smax = v := by
  refine ⟨rfl, by simp [generate_transport_data], ?_, ?_, ?_, rfl, rfl⟩
  · show sampleStd [v] = none
    simp [sampleStd, sampleVariance]
  · show listMean [v] = v
    simpa using listMean_replicate (n := 1) (by norm_num) v
  · show listMedian [v] = v
    simpa using listMedian_replicate (n := 1) (by norm_num) v

end FootTraffic
